import Mathlib

/-!
Verification development for the per-tick resource/production simulation
engine of the brachisto-probe repository (`backend/game_engine.py`).

The engine is shallowly embedded: numeric state and catalog coefficients are
modelled over `ℚ` (the research bonus curve, which uses `math.exp`, over `ℝ`),
Python dictionaries holding one entry per modelled zone become plain record
fields, and every clamp (`max(0, …)`, `min(cap, …)`) is translated literally.
Each definition cites the source lines it embeds.
-/

namespace Brachisto

/-! ## ZoneActivityAllocator (`_calculate_zone_activities`, lines 1769-1828)

Per-zone probe-activity split computed from policy sliders.  The function is a
pure function of the zone's probe count and its policy sliders; we embed the
per-zone body for an ordinary zone and for the Dyson zone. -/

/-- Activity counts returned for one zone by `_calculate_zone_activities`. -/
structure ZoneActivities where
  harvest : ℚ
  replicate : ℚ
  construct : ℚ
  dyson : ℚ
  deriving Repr, DecidableEq

/-- Embeds the ordinary-zone branch (lines 1808-1826): `mining_slider`
(0 = all build, 100 = all mine) splits probes into harvest vs build, then
`replication_slider` (0 = all construct, 100 = all replicate) splits the
build remainder. -/
def calcZoneActivitiesRegular (zoneProbes miningSlider replicationSlider : ℚ) :
    ZoneActivities :=
  let miningFrac := miningSlider / 100
  let replicationFrac := replicationSlider / 100
  let miningCount := zoneProbes * miningFrac
  let buildCount := zoneProbes * (1 - miningFrac)
  let replicateCount := buildCount * replicationFrac
  let constructCount := buildCount * (1 - replicationFrac)
  { harvest := miningCount
    replicate := replicateCount
    construct := constructCount
    dyson := 0 }

/-- Embeds the Dyson-zone branch (lines 1782-1807): `dyson_allocation_slider`
(0 = all build, 100 = all Dyson) splits probes into Dyson construction vs
build, then `replication_slider` splits the build remainder. -/
def calcZoneActivitiesDyson (zoneProbes dysonAllocationSlider replicationSlider : ℚ) :
    ZoneActivities :=
  let dysonFrac := dysonAllocationSlider / 100
  let dysonBuildCount := zoneProbes * dysonFrac
  let buildCount := zoneProbes * (1 - dysonFrac)
  let replicationFrac := replicationSlider / 100
  let replicateCount := buildCount * replicationFrac
  let constructCount := buildCount * (1 - replicationFrac)
  { harvest := 0
    replicate := replicateCount
    construct := constructCount
    dyson := dysonBuildCount }

/-- Embeds the legacy fallback of lines 1787-1791: when only the inverse
`dyson_build_slider` is present the allocator uses
`dyson_allocation_slider = 100 - dyson_build_slider`. -/
def dysonAllocationFromLegacy (dysonBuildSlider : ℚ) : ℚ :=
  100 - dysonBuildSlider

/-! ## Probe allocation action (`_allocate_probes`, lines 3187-3231)

The legacy global allocation map `self.probe_allocations` holds the four
tasks initialised at lines 89-94; there is a single probe type.  A request is
a partial map from task to a (fractional) probe count; tasks absent from the
engine's allocation map would be skipped, and all four tasks are present. -/

/-- Tasks present in `self.probe_allocations` (initialised at lines 89-94). -/
inductive Task where
  | harvest
  | construct
  | research
  | dyson
  deriving Repr, DecidableEq

/-- All four allocation tasks. -/
def Task.all : List Task :=
  [Task.harvest, Task.construct, Task.research, Task.dyson]

/-- Allocation state for the single probe type: one count per task. -/
structure Allocations where
  harvestCount : ℚ
  constructCount : ℚ
  researchCount : ℚ
  dysonCount : ℚ
  deriving Repr, DecidableEq

/-- Reads one task's probe count. -/
def Allocations.get (a : Allocations) : Task → ℚ
  | Task.harvest => a.harvestCount
  | Task.construct => a.constructCount
  | Task.research => a.researchCount
  | Task.dyson => a.dysonCount

/-- Writes one task's probe count. -/
def Allocations.set (a : Allocations) : Task → ℚ → Allocations
  | Task.harvest, v => { a with harvestCount := v }
  | Task.construct, v => { a with constructCount := v }
  | Task.research, v => { a with researchCount := v }
  | Task.dyson, v => { a with dysonCount := v }

/-- An allocation request: `some c` when the task appears in the
`allocations` dictionary of the action, `none` otherwise. -/
def AllocationRequest : Type :=
  Task → Option ℚ

/-- Total probe count requested across all tasks for the single probe type
(validation pass of lines 3192-3202). -/
def totalRequested (req : AllocationRequest) : ℚ :=
  (Task.all.map fun t => (req t).getD 0).sum

/-- Applies one task of the request: a task present in the request is first
reset to 0 (lines 3210-3217) then set to `max 0 count` (lines 3219-3229);
an absent task keeps its old value. -/
def applyRequest (req : AllocationRequest) (a : Allocations) : Allocations :=
  Task.all.foldl
    (fun acc t =>
      match req t with
      | some c => acc.set t (max 0 c)
      | none => acc)
    a

/-- Embeds `_allocate_probes` (lines 3187-3231): validation first — the
request is rejected by `raise ValueError` (line 3208) when the total
requested count exceeds the available probes by more than the 0.001
tolerance — and only then are allocations reset and rewritten. -/
def allocateProbes (available : ℚ) (req : AllocationRequest) (a : Allocations) :
    Except String Allocations :=
  if totalRequested req > available + 1 / 1000 then
    Except.error "Not enough probes"
  else
    Except.ok (applyRequest req a)

/-! ## ResearchProgressEngine

`_update_research` (lines 2157-2255) advances each eligible, enabled tier;
`_calculate_research_bonus` (lines 307-360) computes the compounding bonus. -/

/-- Python `int()` truncation toward zero on a rational. -/
def pyInt (x : ℚ) : ℤ :=
  if 0 ≤ x then ⌊x⌋ else ⌈x⌉

/-- Tier cost in FLOP-days (lines 2236-2238): first tier costs 1000
EFLOP-days, each further tier is 150 times more expensive, converted to
FLOP-days by the factor 1e18. -/
def tierCost (tierIndex : ℕ) : ℚ :=
  1000 * 150 ^ tierIndex * 10 ^ 18

/-- Mutable per-(tree, tier) research record (initialised at lines 294-301). -/
structure TierState where
  tranchesCompleted : ℤ
  progress : ℚ
  startTime : Option ℚ
  completionTime : Option ℚ
  deriving Repr, DecidableEq

/-- Embeds the body of the `_update_research` loop for one eligible, enabled
project (lines 2212-2255): record `start_time` on first allocation, skip a
tier whose tranches are complete (recording `completion_time`), otherwise add
`allocated_flops × Δt` to the FLOP-day ledger, recompute
`tranches_completed = min(int(progress / flops_per_tranche), max_tranches)`,
and on completion cap `progress` at the tier cost and record
`completion_time`.  Tiers that are not eligible are not touched by the
loop at all. -/
def updateTierProgress (maxTranches : ℤ) (tierIndex : ℕ)
    (flopsAllocated dt time : ℚ) (ts : TierState) : TierState :=
  let ts1 : TierState :=
    if ts.startTime = none then { ts with startTime := some time } else ts
  if ts1.tranchesCompleted ≥ maxTranches then
    if ts1.completionTime = none then { ts1 with completionTime := some time } else ts1
  else
    let cost := tierCost tierIndex
    let flopsPerTranche := cost / (maxTranches : ℚ)
    let newProgress := ts1.progress + flopsAllocated * dt
    let newTranches :=
      if flopsPerTranche > 0 then pyInt (newProgress / flopsPerTranche) else 0
    let tranches2 := min newTranches maxTranches
    let ts2 : TierState :=
      { ts1 with progress := newProgress, tranchesCompleted := tranches2 }
    if tranches2 ≥ maxTranches then
      { ts2 with
          progress := cost
          completionTime :=
            if ts2.completionTime = none then some time else ts2.completionTime }
    else ts2

/-- Embeds the in-progress branch of `_calculate_research_bonus`
(line 354): `bonus = base_bonus * e^(0.20 * (t - start_time))`. -/
noncomputable def researchBonusInProgress (baseBonus startTime t : ℝ) : ℝ :=
  baseBonus * Real.exp (0.2 * (t - startTime))

/-- Embeds the completed branch of `_calculate_research_bonus`
(lines 347-351): the principal doubles and compounding restarts from the
completion instant, `bonus = (base_bonus * 2) * e^(0.20 * (t - completion_time))`. -/
noncomputable def researchBonusCompleted (baseBonus completionTime t : ℝ) : ℝ :=
  (baseBonus * 2) * Real.exp (0.2 * (t - completionTime))

/-! ## Per-tick resource core (`tick`, lines 676-1274)

The stocks the claims quantify over (`metal, energy, slag, energy_stored`
and the per-zone `zone_metal_remaining, zone_mass_remaining,
zone_slag_produced, zone_depleted`) are modelled for one zone; the catalog
coefficients, research-skill multipliers and allocator outputs consumed by a
tick are pure values of the pre-tick state and appear as parameters. -/

/-- Catalog data of the modelled zone. -/
structure ZoneCfg where
  isDyson : Bool
  metalPct : ℚ
  deriving Repr, DecidableEq

/-- Inputs a tick consumes that are computed by pure helpers from the
pre-tick state and the immutable catalog:
`harvestCount` is the allocator output for the zone (line 1850),
`harvestRatePerProbe` the combined per-probe rate of lines 1862-1883
(dexterity, skills, mining multiplier and probe-count scaling),
`prodEff` the production-efficiency skill of line 1929,
`constantSupply` is `Config.CONSTANT_ENERGY_SUPPLY` (line 712),
`energyProduction` the output of `_calculate_energy_production`,
`nonComputeConsumption` and `computeConsumption` the two consumption terms of
line 734, `storageCapacity` the output of `_calculate_energy_storage_capacity`,
`metalDemandRate` the pre-throttle probe+structure metal demand of
lines 786-820 (the dyson term of line 801 is 0), `probeBuildRate` and
`structureBuildRate` the pre-throttle construction rates of lines 888 and
1138, `convCapacity`/`convEnergyCost` the recycler totals of lines 2344-2357,
and `dt` the tick's `delta_time`. -/
structure TickParams where
  harvestCount : ℚ
  harvestRatePerProbe : ℚ
  prodEff : ℚ
  constantSupply : ℚ
  energyProduction : ℚ
  nonComputeConsumption : ℚ
  computeConsumption : ℚ
  storageCapacity : ℚ
  metalDemandRate : ℚ
  probeBuildRate : ℚ
  structureBuildRate : ℚ
  convCapacity : ℚ
  convEnergyCost : ℚ
  dt : ℚ
  deriving Repr, DecidableEq

/-- The engine stocks named by the claims (fields of `GameEngine.__init__`,
lines 21-30 and 119-138, for the modelled zone). -/
structure EngineState where
  metal : ℚ
  energy : ℚ
  slag : ℚ
  energyStored : ℚ
  zoneMetalRemaining : ℚ
  zoneMassRemaining : ℚ
  zoneSlagProduced : ℚ
  zoneDepleted : Bool
  deriving Repr, DecidableEq

/-- Output of `_calculate_metal_production`: the mutated state together with
the returned `(rate, zone_depletion)` pair for the modelled zone. -/
structure MetalProdResult where
  state : EngineState
  rate : ℚ
  dep : ℚ
  deriving Repr, DecidableEq

/-- Embeds `_calculate_metal_production` (lines 1830-1962) for the modelled
zone, with no legacy mining `structures` (so the structure-mining loop of
lines 1895-1926 contributes nothing).  Returns the updated state, the total
production rate and the zone's depletion rate.  Despite its name the source
function mutates state: having computed the probe-harvest contribution
(capped at the zone's remaining metal, lines 1885-1893, guarded by
`harvest_count > 0.001` at line 1852 and by the zone not being depleted at
line 1887) and scaled it by the production-efficiency skill (lines
1928-1934), it immediately adds the derived slag to the global pool and to
`zone_slag_produced` and subtracts the full mined mass from
`zone_mass_remaining` (lines 1936-1960) — as bare rate amounts, not
multiplied by any `delta_time` or throttle. -/
def calcMetalProduction (cfg : ZoneCfg) (p : TickParams) (s : EngineState) :
    MetalProdResult :=
  if cfg.isDyson then { state := s, rate := 0, dep := 0 }
  else
    let contribution :=
      if p.harvestCount > 1 / 1000 ∧ s.zoneMetalRemaining > 0 ∧ s.zoneDepleted = false then
        min (p.harvestRatePerProbe * p.harvestCount) s.zoneMetalRemaining
      else 0
    let rate := contribution * p.prodEff
    let dep := contribution * p.prodEff
    if cfg.metalPct > 0 then
      let totalMassMined := dep / cfg.metalPct
      let slagProduced := totalMassMined * (1 - cfg.metalPct)
      { state :=
          { s with
              slag := s.slag + slagProduced
              zoneSlagProduced := s.zoneSlagProduced + slagProduced
              zoneMassRemaining := max 0 (s.zoneMassRemaining - totalMassMined) }
        rate := rate
        dep := dep }
    else { state := s, rate := rate, dep := dep }

/-- Result of the energy pass. -/
structure EnergyOutcome where
  stored : ℚ
  energy : ℚ
  throttle : ℚ
  deriving Repr, DecidableEq

/-- Embeds the energy pass of `tick` (lines 710-774): net energy over `Δt`
is buffered through storage (topping up capped at capacity, or drawing down
to cover a deficit), storage is clamped to `[0, capacity]` (line 762), a
residual deficit yields `energy_throttle = max(0, total_available /
consumption)` (lines 764-771), and the flow-only `energy` stock is set to
`max(0, net)` (line 774). -/
def energyPhase (p : TickParams) (stored : ℚ) : EnergyOutcome :=
  let totalAvailable := p.constantSupply + p.energyProduction
  let consumption := p.nonComputeConsumption + p.computeConsumption
  let net := totalAvailable - consumption
  let netWattDays := net * p.dt
  let afterStorage :=
    if netWattDays > 0 then
      (min p.storageCapacity (stored + netWattDays), net)
    else
      let deficit := |netWattDays|
      if stored ≥ deficit then (stored - deficit, 0)
      else ((0 : ℚ), -(deficit - stored))
  let stored2 := max 0 (min p.storageCapacity afterStorage.1)
  let net2 := afterStorage.2
  let throttle :=
    if net2 < 0 then
      if consumption > 0 then max 0 (totalAvailable / consumption) else 0
    else 1
  { stored := stored2, energy := max 0 net2, throttle := throttle }

/-- Embeds one construction metal sink (the clamp pattern of lines 961-974,
996-1008, 1066-1080, 1102-1113 and 1177-1188): this tick's kg-progress is
capped at the available metal, which is then deducted and floored at 0. -/
def buildSink (rate dt metal : ℚ) : ℚ :=
  let progress := rate * dt
  let progress2 := if metal < progress then metal else progress
  max 0 (metal - progress2)

/-- Stocks touched by `_recycle_slag`. -/
structure RecycleResult where
  metal : ℚ
  slag : ℚ
  energy : ℚ
  deriving Repr, DecidableEq

/-- Embeds `_recycle_slag` (lines 2334-2388): fails closed on no slag, no
converters or no energy; otherwise converts at the minimum of installed
capacity, the energy-affordable rate and the slag-affordable rate, bounded
by the available slag and energy. -/
def recycleSlag (p : TickParams) (metal slag energy : ℚ) : RecycleResult :=
  if slag ≤ 0 then { metal := metal, slag := slag, energy := energy }
  else if p.convCapacity ≤ 0 then { metal := metal, slag := slag, energy := energy }
  else if energy ≤ 0 then { metal := metal, slag := slag, energy := energy }
  else
    let ratio := p.convEnergyCost / p.convCapacity
    let maxByEnergy := energy / ratio
    let maxBySlag := if p.dt > 0 then slag / p.dt else 0
    let actualRate := min p.convCapacity (min maxByEnergy maxBySlag)
    let metalProduced := min (actualRate * p.dt) slag
    let energyConsumed := min (actualRate * ratio * p.dt) energy
    { metal := metal + metalProduced
      slag := slag - metalProduced
      energy := max 0 (energy - energyConsumed) }

/-- Observable outcome of one tick. -/
structure TickResult where
  state : EngineState
  energyThrottle : ℚ
  metalThrottle : ℚ
  metalProductionRate : ℚ
  deriving Repr, DecidableEq

/-- Embeds `tick` (lines 676-1274) on the modelled stocks, in source order:
`_calculate_metal_production` (line 696, already mutating slag and zone
mass), the energy pass (lines 710-774), energy throttling of the metal rate
(line 780), the metal throttle (lines 784-834, where the consumption rates
of lines 786-820 scale with the energy throttle), crediting mined metal
(lines 846-847), applying zone depletion scaled by the energy throttle and
`Δt` and reducing the zone's mass a second time by the corresponding mined
mass (lines 853-871), the probe- and structure-construction metal sinks
(double-throttled, lines 873-1226), `_check_zone_depletion` (line 1271,
lines 2322-2332: a non-Dyson zone whose metal and mass are both exhausted is
marked depleted, irreversibly) and `_recycle_slag` (line 1274). -/
def tick (cfg : ZoneCfg) (p : TickParams) (s : EngineState) : TickResult :=
  let mp := calcMetalProduction cfg p s
  let s1 := mp.state
  let baseRate := mp.rate
  let dep := mp.dep
  let eo := energyPhase p s1.energyStored
  let metalRate := baseRate * eo.throttle
  let consRate := p.metalDemandRate * eo.throttle
  let netMetalRate := metalRate - consRate
  let mThrottle :=
    if s1.metal ≤ 0 ∧ netMetalRate < 0 then
      if consRate > 0 then max 0 (metalRate / consRate) else 0
    else 1
  let metal1 := max 0 (s1.metal + metalRate * p.dt)
  let actualDepletion := dep * eo.throttle * p.dt
  let zMetal := max 0 (s1.zoneMetalRemaining - actualDepletion)
  let zMass :=
    if cfg.isDyson = false ∧ cfg.metalPct > 0 then
      max 0 (s1.zoneMassRemaining - actualDepletion / cfg.metalPct)
    else s1.zoneMassRemaining
  let metal2 := buildSink (p.probeBuildRate * eo.throttle * mThrottle) p.dt metal1
  let metal3 := buildSink (p.structureBuildRate * eo.throttle * mThrottle) p.dt metal2
  let depleted :=
    s1.zoneDepleted || (!cfg.isDyson && decide (zMetal ≤ 0) && decide (zMass ≤ 0))
  let rec3 := recycleSlag p metal3 s1.slag eo.energy
  { state :=
      { metal := rec3.metal
        energy := rec3.energy
        slag := rec3.slag
        energyStored := eo.stored
        zoneMetalRemaining := zMetal
        zoneMassRemaining := zMass
        zoneSlagProduced := s1.zoneSlagProduced
        zoneDepleted := depleted }
    energyThrottle := eo.throttle
    metalThrottle := mThrottle
    metalProductionRate := metalRate }

/-- Embeds the state effect of `get_state` (lines 571-666): the serialized
snapshot computes its display rates by calling `_calculate_metal_production`
(line 577), which performs the slag/mass mutations captured by
`calcMetalProduction`; this definition is that call's effect on the stocks. -/
def getStateEffect (cfg : ZoneCfg) (p : TickParams) (s : EngineState) : EngineState :=
  (calcMetalProduction cfg p s).state

/-! ## Concrete instances used by the failing-input and witness theorems -/

/-- A non-Dyson zone with `metal_percentage = 1/2`. -/
def sampleCfg : ZoneCfg :=
  { isDyson := false, metalPct := 1 / 2 }

/-- One harvesting probe at 10 kg/day, no other activity, `Δt = 1` day. -/
def sampleParams : TickParams :=
  { harvestCount := 1
    harvestRatePerProbe := 10
    prodEff := 1
    constantSupply := 0
    energyProduction := 0
    nonComputeConsumption := 0
    computeConsumption := 0
    storageCapacity := 0
    metalDemandRate := 0
    probeBuildRate := 0
    structureBuildRate := 0
    convCapacity := 0
    convEnergyCost := 0
    dt := 1 }

/-- Fresh stocks: a zone holding 100 kg of metal inside 200 kg of mass. -/
def sampleState : EngineState :=
  { metal := 0
    energy := 0
    slag := 0
    energyStored := 0
    zoneMetalRemaining := 100
    zoneMassRemaining := 200
    zoneSlagProduced := 0
    zoneDepleted := false }

/-! ## Theorems -/

/-- C1 (code bug, failing input): one tick of the zone of `sampleCfg` at
`sampleState` with one probe harvesting 10 kg/day over `Δt = 1` mines 10 kg
of metal, yet reduces the zone's mass by 40 kg (the mined mass is removed
once un-scaled inside `_calculate_metal_production` and a second time scaled
by `Δt` in `tick`) and books 10 kg of slag.  The spec's conservation law
`Δmass × metal_percentage = Δmetal` fails (20 ≠ 10), as does
`Δmass − Δmetal = Δslag` (30 ≠ 10). -/
theorem mass_conservation_violated_at_failing_input :
    (sampleState.zoneMassRemaining -
        (tick sampleCfg sampleParams sampleState).state.zoneMassRemaining = 40 ∧
      sampleState.zoneMetalRemaining -
        (tick sampleCfg sampleParams sampleState).state.zoneMetalRemaining = 10 ∧
      (tick sampleCfg sampleParams sampleState).state.zoneSlagProduced -
        sampleState.zoneSlagProduced = 10) ∧
    ¬ (sampleState.zoneMassRemaining -
        (tick sampleCfg sampleParams sampleState).state.zoneMassRemaining) *
        sampleCfg.metalPct =
      sampleState.zoneMetalRemaining -
        (tick sampleCfg sampleParams sampleState).state.zoneMetalRemaining ∧
    ¬ (sampleState.zoneMassRemaining -
        (tick sampleCfg sampleParams sampleState).state.zoneMassRemaining) -
        (sampleState.zoneMetalRemaining -
          (tick sampleCfg sampleParams sampleState).state.zoneMetalRemaining) =
      (tick sampleCfg sampleParams sampleState).state.zoneSlagProduced -
        sampleState.zoneSlagProduced := by
  norm_num [tick, calcMetalProduction, energyPhase, buildSink, recycleSlag,
    sampleCfg, sampleParams, sampleState]

/-- C2 (code bug, failing input): computing the serialized snapshot at
`sampleState` mutates the simulation state — `get_state` (line 577) calls
`_calculate_metal_production`, which adds to the global and per-zone slag
pools and reduces the zone's remaining mass. -/
theorem get_state_mutates_at_failing_input :
    ¬ (getStateEffect sampleCfg sampleParams sampleState).slag = sampleState.slag ∧
    ¬ (getStateEffect sampleCfg sampleParams sampleState).zoneSlagProduced =
        sampleState.zoneSlagProduced ∧
    ¬ (getStateEffect sampleCfg sampleParams sampleState).zoneMassRemaining =
        sampleState.zoneMassRemaining := by
  norm_num [getStateEffect, calcMetalProduction, sampleCfg, sampleParams, sampleState]

/-- C5: for every zone and every call to `_calculate_zone_activities`, the
returned activity counts sum exactly to the zone's probe count —
`harvest + replicate + construct` for an ordinary zone and
`dyson + replicate + construct` for the Dyson zone (also under the legacy
`dyson_build_slider` fallback) — hence certainly within ε = 0.001. -/
theorem zone_activity_allocation_conserves_probes
    (zoneProbes miningSlider replicationSlider dysonAllocationSlider dysonBuildSlider : ℚ) :
    (calcZoneActivitiesRegular zoneProbes miningSlider replicationSlider).harvest +
        (calcZoneActivitiesRegular zoneProbes miningSlider replicationSlider).replicate +
        (calcZoneActivitiesRegular zoneProbes miningSlider replicationSlider).construct =
      zoneProbes ∧
    (calcZoneActivitiesDyson zoneProbes dysonAllocationSlider replicationSlider).dyson +
        (calcZoneActivitiesDyson zoneProbes dysonAllocationSlider replicationSlider).replicate +
        (calcZoneActivitiesDyson zoneProbes dysonAllocationSlider replicationSlider).construct =
      zoneProbes ∧
    (calcZoneActivitiesDyson zoneProbes (dysonAllocationFromLegacy dysonBuildSlider)
          replicationSlider).dyson +
        (calcZoneActivitiesDyson zoneProbes (dysonAllocationFromLegacy dysonBuildSlider)
          replicationSlider).replicate +
        (calcZoneActivitiesDyson zoneProbes (dysonAllocationFromLegacy dysonBuildSlider)
          replicationSlider).construct =
      zoneProbes := by
  refine ⟨?_, ?_, ?_⟩ <;>
    simp only [calcZoneActivitiesRegular, calcZoneActivitiesDyson,
      dysonAllocationFromLegacy] <;>
    ring

/-- C7 (counterexample): the claim "the value just after completion is twice
the value just before completion" fails on the code's formulas.  With
`base_bonus = 1`, `start_time = 0` and `completion_time = 5`, the bonus just
before completion is `e^(0.2·5) = e` while the value at the completion
instant is `2·e^0 = 2`, and `2 ≠ 2·e`. -/
theorem research_bonus_jump_not_factor_two :
    ¬ researchBonusCompleted 1 5 5 = 2 * researchBonusInProgress 1 0 5 := by
  simp only [researchBonusCompleted, researchBonusInProgress]
  intro h
  have h5 : (0.2 : ℝ) * (5 - 5) = 0 := by norm_num
  have h1 : (0.2 : ℝ) * (5 - 0) = 1 := by norm_num
  rw [h5, h1, Real.exp_zero] at h
  have hexp : Real.exp 1 = 1 := by linarith
  have := Real.exp_one_gt_d9
  linarith

/-- C7 (amended): a tier's bonus is continuous while in progress and
continuous after completion; at `completion_time` the principal resets to
twice the base bonus — the value at the completion instant is `2·base`,
which equals `2·e^(-0.2·(completion_time - start_time))` times the value the
in-progress formula reaches just before completion, a factor of exactly 2
only when `completion_time = start_time`. -/
theorem research_bonus_jump_characterization (base s c : ℝ) :
    researchBonusCompleted base c c = 2 * base ∧
    researchBonusCompleted base c c * Real.exp (0.2 * (c - s)) =
      2 * researchBonusInProgress base s c ∧
    Continuous (fun t => researchBonusInProgress base s t) ∧
    Continuous (fun t => researchBonusCompleted base c t) := by
  refine ⟨?_, ?_, ?_, ?_⟩
  · simp [researchBonusCompleted, sub_self]
    ring
  · simp only [researchBonusCompleted, researchBonusInProgress, sub_self, mul_zero,
      Real.exp_zero, mul_one]
    ring
  · exact continuous_const.mul (Real.continuous_exp.comp (by continuity))
  · exact continuous_const.mul (Real.continuous_exp.comp (by continuity))

set_option maxHeartbeats 1000000 in
/-- Helper: the value `applyRequest` leaves at a task is the clamped
requested count when the task is present in the request, and the old value
otherwise. -/
theorem applyRequest_get (req : AllocationRequest) (a : Allocations) (t : Task) :
    (applyRequest req a).get t = ((req t).map fun c => max 0 c).getD (a.get t) := by
  rcases hh : req Task.harvest with _ | ch <;>
    rcases hc : req Task.construct with _ | cc <;>
      rcases hr : req Task.research with _ | cr <;>
        rcases hd : req Task.dyson with _ | cd <;>
          cases t <;>
            simp [applyRequest, Task.all, Allocations.set, Allocations.get, hh, hc, hr, hd]

/-- C10: `_allocate_probes` is all-or-nothing.  If the total requested count
exceeds the available probes by more than the 0.001 tolerance the action
raises before any mutation, leaving the allocations untouched; otherwise the
allocations are rewritten so that every requested task holds its (clamped)
requested count and every other task keeps its previous count. -/
theorem allocate_probes_all_or_nothing (available : ℚ) (req : AllocationRequest)
    (a : Allocations) :
    (totalRequested req > available + 1 / 1000 →
      allocateProbes available req a = Except.error "Not enough probes") ∧
    (¬ totalRequested req > available + 1 / 1000 →
      allocateProbes available req a = Except.ok (applyRequest req a) ∧
      (∀ t c, req t = some c → (applyRequest req a).get t = max 0 c) ∧
      (∀ t, req t = none → (applyRequest req a).get t = a.get t)) := by
  constructor
  · intro h
    unfold allocateProbes
    rw [if_pos h]
  · intro h
    refine ⟨by unfold allocateProbes; rw [if_neg h], fun t c ht => ?_, fun t ht => ?_⟩
    · simp [applyRequest_get, ht]
    · simp [applyRequest_get, ht]

/-- Request asking for five probes on harvest only. -/
def sampleRequest : AllocationRequest :=
  fun t => match t with
  | Task.harvest => some 5
  | _ => none

/-- Initial allocations used by the C10 witness. -/
def sampleAllocations : Allocations :=
  { harvestCount := 1, constructCount := 1, researchCount := 0, dysonCount := 1 }

/-- C10 witness: with 1 probe available the request for 5 is rejected; with
10 available it is applied, setting harvest to 5 and leaving the other
tasks at their previous counts. -/
theorem allocate_probes_all_or_nothing_witness :
    allocateProbes 1 sampleRequest sampleAllocations = Except.error "Not enough probes" ∧
    (allocateProbes 10 sampleRequest sampleAllocations =
        Except.ok (applyRequest sampleRequest sampleAllocations) ∧
      (applyRequest sampleRequest sampleAllocations).get Task.harvest = max 0 5 ∧
      (applyRequest sampleRequest sampleAllocations).get Task.construct =
        sampleAllocations.get Task.construct) := by
  have h1 := (allocate_probes_all_or_nothing 1 sampleRequest sampleAllocations).1
    (by norm_num [totalRequested, sampleRequest, Task.all])
  have h2 := (allocate_probes_all_or_nothing 10 sampleRequest sampleAllocations).2
    (by norm_num [totalRequested, sampleRequest, Task.all])
  exact ⟨h1, h2.1, h2.2.1 Task.harvest 5 rfl, h2.2.2 Task.construct rfl⟩

/-- Helper: the tier cost is positive. -/
theorem tierCost_pos (tierIndex : ℕ) : 0 < tierCost tierIndex := by
  unfold tierCost
  positivity

/-- C6: one research update of an eligible tier never decreases
`tranches_completed`, keeps it at or below the tier's max tranches, and
leaves the accumulated progress at or below
`tier_cost = 1000 EFLOP-days × 150^tier_index`.  The hypotheses are the
state invariants that hold at initialisation (`tranches_completed = 0`,
`progress = 0`, lines 294-301) and are re-established by every update. -/
theorem research_tranches_monotone_and_progress_bounded
    (maxTranches : ℤ) (tierIndex : ℕ) (flopsAllocated dt time : ℚ) (ts : TierState)
    (hmax : 0 < maxTranches)
    (halloc : 0 ≤ flopsAllocated) (hdt : 0 ≤ dt)
    (htr : ts.tranchesCompleted ≤ maxTranches)
    (hp0 : 0 ≤ ts.progress)
    (hinv : (ts.tranchesCompleted : ℚ) * (tierCost tierIndex / (maxTranches : ℚ)) ≤
      ts.progress)
    (hpc : ts.progress ≤ tierCost tierIndex) :
    ts.tranchesCompleted ≤
        (updateTierProgress maxTranches tierIndex flopsAllocated dt time ts).tranchesCompleted ∧
      (updateTierProgress maxTranches tierIndex flopsAllocated dt time ts).tranchesCompleted ≤
        maxTranches ∧
      (updateTierProgress maxTranches tierIndex flopsAllocated dt time ts).progress ≤
        tierCost tierIndex := by
  have hcost : (0 : ℚ) < tierCost tierIndex := tierCost_pos tierIndex
  have hmaxQ : (0 : ℚ) < (maxTranches : ℚ) := by exact_mod_cast hmax
  have hfpt : tierCost tierIndex / (maxTranches : ℚ) > 0 := div_pos hcost hmaxQ
  obtain ⟨tr, pr, st, ct⟩ := ts
  simp only at htr hinv hp0 hpc
  have hnp : 0 ≤ pr + flopsAllocated * dt := by positivity
  have hquot : 0 ≤ (pr + flopsAllocated * dt) / (tierCost tierIndex / (maxTranches : ℚ)) :=
    div_nonneg hnp hfpt.le
  have hmono :
      tr ≤ pyInt ((pr + flopsAllocated * dt) / (tierCost tierIndex / (maxTranches : ℚ))) := by
    rw [pyInt, if_pos hquot]
    refine Int.le_floor.mpr ?_
    rw [le_div_iff₀ hfpt]
    have : ((tr : ℚ)) * (tierCost tierIndex / (maxTranches : ℚ)) ≤ pr := hinv
    nlinarith
  have hcap : ∀ _ : ¬ min
      (pyInt ((pr + flopsAllocated * dt) / (tierCost tierIndex / (maxTranches : ℚ))))
      maxTranches ≥ maxTranches,
      pr + flopsAllocated * dt ≤ tierCost tierIndex := by
    intro h2
    have hlt : min (pyInt ((pr + flopsAllocated * dt) / (tierCost tierIndex / (maxTranches : ℚ))))
        maxTranches < maxTranches := lt_of_not_le h2
    have hlt2 : pyInt ((pr + flopsAllocated * dt) / (tierCost tierIndex / (maxTranches : ℚ))) <
        maxTranches := by
      rcases min_lt_iff.mp hlt with h | h
      · exact h
      · exact absurd h (lt_irrefl _)
    rw [pyInt, if_pos hquot] at hlt2
    have hlt3 : (pr + flopsAllocated * dt) / (tierCost tierIndex / (maxTranches : ℚ)) <
        (maxTranches : ℚ) := Int.floor_lt.mp hlt2
    have h4 := (div_lt_iff₀ hfpt).mp hlt3
    have h5 : (maxTranches : ℚ) * (tierCost tierIndex / (maxTranches : ℚ)) =
        tierCost tierIndex := by
      field_simp
    linarith
  unfold updateTierProgress
  cases st <;> simp only [reduceCtorEq, if_true, if_false, ite_true, ite_false] <;>
    [skip; skip] <;>
  · by_cases h1 : tr ≥ maxTranches
    · rw [if_pos h1]
      by_cases hct : ct = none
      · rw [if_pos hct]
        exact ⟨le_refl tr, htr, hpc⟩
      · rw [if_neg hct]
        exact ⟨le_refl tr, htr, hpc⟩
    · rw [if_neg h1, if_pos hfpt]
      by_cases h2 : min
          (pyInt ((pr + flopsAllocated * dt) / (tierCost tierIndex / (maxTranches : ℚ))))
          maxTranches ≥ maxTranches
      · rw [if_pos h2]
        exact ⟨le_trans htr h2, min_le_right _ _, le_refl _⟩
      · rw [if_neg h2]
        exact ⟨le_min hmono htr, min_le_right _ _, hcap h2⟩

/-- C6 witness: a fresh first tier (10 tranches, index 0) receiving
10^20 FLOPS for one day. -/
theorem research_tranches_monotone_and_progress_bounded_witness :
    (0 : ℤ) ≤
        (updateTierProgress 10 0 (10 ^ 20) 1 3
            { tranchesCompleted := 0, progress := 0, startTime := none,
              completionTime := none }).tranchesCompleted ∧
      (updateTierProgress 10 0 (10 ^ 20) 1 3
          { tranchesCompleted := 0, progress := 0, startTime := none,
            completionTime := none }).tranchesCompleted ≤ 10 ∧
      (updateTierProgress 10 0 (10 ^ 20) 1 3
          { tranchesCompleted := 0, progress := 0, startTime := none,
            completionTime := none }).progress ≤ tierCost 0 :=
  research_tranches_monotone_and_progress_bounded 10 0 (10 ^ 20) 1 3
    { tranchesCompleted := 0, progress := 0, startTime := none, completionTime := none }
    (by norm_num) (by positivity) (by norm_num) (by norm_num) (by norm_num)
    (by norm_num) (le_of_lt (tierCost_pos 0))

/-- Helper: `_calculate_metal_production` does not touch the metal stock. -/
theorem calcMetal_state_metal (cfg : ZoneCfg) (p : TickParams) (s : EngineState) :
    (calcMetalProduction cfg p s).state.metal = s.metal := by
  simp only [calcMetalProduction]
  split_ifs <;> rfl

/-- Helper: `_calculate_metal_production` does not touch stored energy. -/
theorem calcMetal_state_energyStored (cfg : ZoneCfg) (p : TickParams) (s : EngineState) :
    (calcMetalProduction cfg p s).state.energyStored = s.energyStored := by
  simp only [calcMetalProduction]
  split_ifs <;> rfl

/-- Helper: `_calculate_metal_production` does not touch the zone's metal. -/
theorem calcMetal_state_zoneMetalRemaining (cfg : ZoneCfg) (p : TickParams) (s : EngineState) :
    (calcMetalProduction cfg p s).state.zoneMetalRemaining = s.zoneMetalRemaining := by
  simp only [calcMetalProduction]
  split_ifs <;> rfl

/-- Helper: `_calculate_metal_production` does not touch the depletion flag. -/
theorem calcMetal_state_zoneDepleted (cfg : ZoneCfg) (p : TickParams) (s : EngineState) :
    (calcMetalProduction cfg p s).state.zoneDepleted = s.zoneDepleted := by
  simp only [calcMetalProduction]
  split_ifs <;> rfl

/-- Helper: the production rate returned by `_calculate_metal_production` is
nonnegative when the allocator output and the multipliers are. -/
theorem calcMetal_rate_nonneg (cfg : ZoneCfg) (p : TickParams) (s : EngineState)
    (hhc : 0 ≤ p.harvestCount) (hhr : 0 ≤ p.harvestRatePerProbe) (hpe : 0 ≤ p.prodEff) :
    0 ≤ (calcMetalProduction cfg p s).rate := by
  simp only [calcMetalProduction]
  split_ifs with h1 h2 h3 h4 <;> try norm_num
  all_goals
    first
    | exact mul_nonneg (le_min (mul_nonneg hhr hhc) (by linarith [h2.2.1])) hpe
    | exact mul_nonneg (le_min (mul_nonneg hhr hhc) (by linarith [h3.2.1])) hpe
    | exact mul_nonneg (le_min (mul_nonneg hhr hhc) (by linarith [h4.2.1])) hpe

/-- Helper: the per-zone depletion rate equals the production rate in the
single-zone model. -/
theorem calcMetal_rate_eq_dep (cfg : ZoneCfg) (p : TickParams) (s : EngineState) :
    (calcMetalProduction cfg p s).rate = (calcMetalProduction cfg p s).dep := by
  simp only [calcMetalProduction]
  split_ifs <;> rfl

/-- Helper: the global slag pool stays nonnegative across
`_calculate_metal_production` when the catalog's `metal_percentage` is at
most 1. -/
theorem calcMetal_state_slag_nonneg (cfg : ZoneCfg) (p : TickParams) (s : EngineState)
    (hs : 0 ≤ s.slag) (hhc : 0 ≤ p.harvestCount) (hhr : 0 ≤ p.harvestRatePerProbe)
    (hpe : 0 ≤ p.prodEff) (hmp1 : cfg.metalPct ≤ 1) :
    0 ≤ (calcMetalProduction cfg p s).state.slag := by
  have hrate := calcMetal_rate_nonneg cfg p s hhc hhr hpe
  simp only [calcMetalProduction] at hrate ⊢
  split_ifs at hrate ⊢ with h1 h2 h3 <;> try exact hs
  all_goals
    refine add_nonneg hs (mul_nonneg (div_nonneg ?_ (by linarith)) (by linarith))
  all_goals simp_all

/-- Helper: the zone's mass stays nonnegative across
`_calculate_metal_production`. -/
theorem calcMetal_state_zoneMassRemaining_nonneg (cfg : ZoneCfg) (p : TickParams)
    (s : EngineState) (hm : 0 ≤ s.zoneMassRemaining) :
    0 ≤ (calcMetalProduction cfg p s).state.zoneMassRemaining := by
  simp only [calcMetalProduction]
  split_ifs <;> first | exact hm | exact le_max_left 0 _

/-- Helper: a depleted zone contributes nothing: zero rate, zero depletion,
and no slag or per-zone slag-ledger change. -/
theorem calcMetal_depleted (cfg : ZoneCfg) (p : TickParams) (s : EngineState)
    (h : s.zoneDepleted = true) :
    (calcMetalProduction cfg p s).rate = 0 ∧
    (calcMetalProduction cfg p s).dep = 0 ∧
    (calcMetalProduction cfg p s).state.zoneSlagProduced = s.zoneSlagProduced ∧
    (calcMetalProduction cfg p s).state.slag = s.slag := by
  simp only [calcMetalProduction, h]
  split_ifs with h1 h2 h3 <;> simp_all

/-- Helper: `_calculate_metal_production` yields a zero rate when no probes
harvest in the zone. -/
theorem calcMetal_rate_of_no_harvest (cfg : ZoneCfg) (p : TickParams) (s : EngineState)
    (h : p.harvestCount = 0) :
    (calcMetalProduction cfg p s).rate = 0 := by
  have h0 : ¬ (p.harvestCount > 1 / 1000 ∧ s.zoneMetalRemaining > 0 ∧
      s.zoneDepleted = false) := by
    rw [h]
    intro hcon
    norm_num at hcon
  simp only [calcMetalProduction, if_neg h0]
  split_ifs <;> simp

/-- Helper: stored energy is clamped at 0 by the energy pass. -/
theorem energyPhase_stored_nonneg (p : TickParams) (st : ℚ) :
    0 ≤ (energyPhase p st).stored := by
  simp only [energyPhase]
  exact le_max_left 0 _

/-- Helper: the flow-only energy stock is clamped at 0 by the energy pass. -/
theorem energyPhase_energy_nonneg (p : TickParams) (st : ℚ) :
    0 ≤ (energyPhase p st).energy := by
  simp only [energyPhase]
  exact le_max_left 0 _

/-- Helper: the energy throttle is nonnegative. -/
theorem energyPhase_throttle_nonneg (p : TickParams) (st : ℚ) :
    0 ≤ (energyPhase p st).throttle := by
  simp only [energyPhase]
  split_ifs <;> first | exact le_max_left 0 _ | norm_num

/-- Helper: the energy throttle never exceeds 1 when storage and `Δt` are
nonnegative. -/
theorem energyPhase_throttle_le_one (p : TickParams) (st : ℚ)
    (hst : 0 ≤ st) (hdt : 0 ≤ p.dt) :
    (energyPhase p st).throttle ≤ 1 := by
  simp only [energyPhase]
  by_cases h1 : (p.constantSupply + p.energyProduction -
      (p.nonComputeConsumption + p.computeConsumption)) * p.dt > 0
  · simp only [if_pos h1]
    have hnet : ¬ (p.constantSupply + p.energyProduction -
        (p.nonComputeConsumption + p.computeConsumption) < 0) := by
      intro hlt
      have : (p.constantSupply + p.energyProduction -
          (p.nonComputeConsumption + p.computeConsumption)) * p.dt ≤ 0 :=
        mul_nonpos_of_nonpos_of_nonneg hlt.le hdt
      linarith
    simp only [if_neg hnet, le_refl]
  · simp only [if_neg h1]
    by_cases h2 : st ≥ |(p.constantSupply + p.energyProduction -
        (p.nonComputeConsumption + p.computeConsumption)) * p.dt|
    · simp only [if_pos h2]
      norm_num
    · simp only [if_neg h2]
      have h3 : -( |(p.constantSupply + p.energyProduction -
          (p.nonComputeConsumption + p.computeConsumption)) * p.dt| - st) < 0 := by
        have := lt_of_not_ge h2
        linarith
      simp only [if_pos h3]
      by_cases h4 : p.nonComputeConsumption + p.computeConsumption > 0
      · simp only [if_pos h4]
        have habs : 0 < |(p.constantSupply + p.energyProduction -
            (p.nonComputeConsumption + p.computeConsumption)) * p.dt| := by
          have := lt_of_not_ge h2
          linarith
        have hwneg : (p.constantSupply + p.energyProduction -
            (p.nonComputeConsumption + p.computeConsumption)) * p.dt < 0 := by
          rcases lt_trichotomy ((p.constantSupply + p.energyProduction -
              (p.nonComputeConsumption + p.computeConsumption)) * p.dt) 0 with h | h | h
          · exact h
          · rw [h] at habs
            norm_num at habs
          · exact absurd h h1
        have hnetneg : p.constantSupply + p.energyProduction -
            (p.nonComputeConsumption + p.computeConsumption) < 0 := by
          by_contra hge
          push_neg at hge
          exact absurd (mul_nonneg hge hdt) (not_le.mpr hwneg)
        refine max_le (by norm_num) ?_
        refine (div_le_one h4).mpr ?_
        linarith
      · simp only [if_neg h4]
        norm_num

/-- Helper: with zero production and zero consumption the energy throttle is
exactly 1 as long as the constant supply, storage and `Δt` are nonnegative. -/
theorem energyPhase_idle (p : TickParams) (st : ℚ) (hst : 0 ≤ st) (hdt : 0 ≤ p.dt)
    (hprod : p.energyProduction = 0) (hnc : p.nonComputeConsumption = 0)
    (hcc : p.computeConsumption = 0) (hsup : 0 ≤ p.constantSupply) :
    (energyPhase p st).throttle = 1 := by
  simp only [energyPhase, hprod, hnc, hcc, add_zero, sub_zero]
  by_cases h1 : p.constantSupply * p.dt > 0
  · simp only [if_pos h1]
    have hnet : ¬ (p.constantSupply < 0) := not_lt.mpr hsup
    simp only [if_neg hnet]
  · simp only [if_neg h1]
    have hzero : p.constantSupply * p.dt = 0 :=
      le_antisymm (not_lt.mp h1) (mul_nonneg hsup hdt)
    simp only [hzero, abs_zero, ge_iff_le]
    simp only [if_pos hst]
    norm_num

/-- Helper: when the watt-day deficit of a tick is positive and covered by
storage, the energy pass draws it from storage and leaves the throttle at 1
(the C8 scenario on the energy pass itself). -/
theorem energyPhase_deficit_covered (p : TickParams) (st : ℚ)
    (hdef : 0 < (p.nonComputeConsumption + p.computeConsumption -
      (p.constantSupply + p.energyProduction)) * p.dt)
    (hle : (p.nonComputeConsumption + p.computeConsumption -
      (p.constantSupply + p.energyProduction)) * p.dt ≤ st)
    (hcap : st ≤ p.storageCapacity) :
    (energyPhase p st).throttle = 1 ∧
      (energyPhase p st).stored =
        st - (p.nonComputeConsumption + p.computeConsumption -
          (p.constantSupply + p.energyProduction)) * p.dt := by
  simp only [energyPhase]
  have hflip : (p.constantSupply + p.energyProduction -
      (p.nonComputeConsumption + p.computeConsumption)) * p.dt =
      -((p.nonComputeConsumption + p.computeConsumption -
        (p.constantSupply + p.energyProduction)) * p.dt) := by
    ring
  have h1 : ¬ ((p.constantSupply + p.energyProduction -
      (p.nonComputeConsumption + p.computeConsumption)) * p.dt > 0) := by
    rw [hflip]
    linarith
  simp only [if_neg h1]
  have habs : |(p.constantSupply + p.energyProduction -
      (p.nonComputeConsumption + p.computeConsumption)) * p.dt| =
      (p.nonComputeConsumption + p.computeConsumption -
        (p.constantSupply + p.energyProduction)) * p.dt := by
    rw [hflip, abs_neg, abs_of_pos hdef]
  simp only [habs, ge_iff_le]
  simp only [if_pos hle]
  constructor
  · norm_num
  · rw [min_eq_right (by linarith), max_eq_right (by linarith)]

/-- Helper: a construction metal sink leaves a nonnegative stock. -/
theorem buildSink_nonneg (rate dt metal : ℚ) : 0 ≤ buildSink rate dt metal := by
  simp only [buildSink]
  exact le_max_left 0 _

/-- Helper: `_recycle_slag` keeps metal, slag and energy nonnegative. -/
theorem recycleSlag_nonneg (p : TickParams) (metal slag energy : ℚ)
    (hm : 0 ≤ metal) (hs : 0 ≤ slag) (he : 0 ≤ energy)
    (hdt : 0 ≤ p.dt) (hec : 0 ≤ p.convEnergyCost) :
    0 ≤ (recycleSlag p metal slag energy).metal ∧
      0 ≤ (recycleSlag p metal slag energy).slag ∧
      0 ≤ (recycleSlag p metal slag energy).energy := by
  simp only [recycleSlag]
  split_ifs with h1 h2 h3 hdtp
  · exact ⟨hm, hs, he⟩
  · exact ⟨hm, hs, he⟩
  · exact ⟨hm, hs, he⟩
  · have hcap : 0 < p.convCapacity := lt_of_not_le h2
    have hmbe : 0 ≤ energy / (p.convEnergyCost / p.convCapacity) :=
      div_nonneg he (div_nonneg hec hcap.le)
    have hmbs : 0 ≤ slag / p.dt := div_nonneg hs hdtp.le
    have hact : 0 ≤ min p.convCapacity
        (min (energy / (p.convEnergyCost / p.convCapacity)) (slag / p.dt)) :=
      le_min hcap.le (le_min hmbe hmbs)
    refine ⟨add_nonneg hm (le_min (mul_nonneg hact hdt) hs), ?_, le_max_left 0 _⟩
    have hmin := min_le_right (min p.convCapacity
        (min (energy / (p.convEnergyCost / p.convCapacity)) (slag / p.dt)) * p.dt) slag
    linarith
  · have hcap : 0 < p.convCapacity := lt_of_not_le h2
    have hmbe : 0 ≤ energy / (p.convEnergyCost / p.convCapacity) :=
      div_nonneg he (div_nonneg hec hcap.le)
    have hact : 0 ≤ min p.convCapacity
        (min (energy / (p.convEnergyCost / p.convCapacity)) 0) :=
      le_min hcap.le (le_min hmbe (le_refl 0))
    refine ⟨add_nonneg hm (le_min (mul_nonneg hact hdt) hs), ?_, le_max_left 0 _⟩
    have hmin := min_le_right (min p.convCapacity
        (min (energy / (p.convEnergyCost / p.convCapacity)) 0) * p.dt) slag
    linarith

/-- Helper: the tick's energy throttle is the energy pass's throttle. -/
theorem tick_energyThrottle_def (cfg : ZoneCfg) (p : TickParams) (s : EngineState) :
    (tick cfg p s).energyThrottle =
      (energyPhase p (calcMetalProduction cfg p s).state.energyStored).throttle := rfl

/-- Helper: the tick's stored energy is the energy pass's stored energy. -/
theorem tick_stored_def (cfg : ZoneCfg) (p : TickParams) (s : EngineState) :
    (tick cfg p s).state.energyStored =
      (energyPhase p (calcMetalProduction cfg p s).state.energyStored).stored := rfl

/-- Helper: the tick's metal production rate is the energy-throttled
calculator rate (line 780). -/
theorem tick_rate_def (cfg : ZoneCfg) (p : TickParams) (s : EngineState) :
    (tick cfg p s).metalProductionRate =
      (calcMetalProduction cfg p s).rate *
        (energyPhase p (calcMetalProduction cfg p s).state.energyStored).throttle := rfl

/-- Helper: the tick's metal throttle spelled out (lines 824-834). -/
theorem tick_metalThrottle_def (cfg : ZoneCfg) (p : TickParams) (s : EngineState) :
    (tick cfg p s).metalThrottle =
      (if (calcMetalProduction cfg p s).state.metal ≤ 0 ∧
          (calcMetalProduction cfg p s).rate *
              (energyPhase p (calcMetalProduction cfg p s).state.energyStored).throttle -
            p.metalDemandRate *
              (energyPhase p (calcMetalProduction cfg p s).state.energyStored).throttle < 0 then
        if p.metalDemandRate *
            (energyPhase p (calcMetalProduction cfg p s).state.energyStored).throttle > 0 then
          max 0 ((calcMetalProduction cfg p s).rate *
              (energyPhase p (calcMetalProduction cfg p s).state.energyStored).throttle /
            (p.metalDemandRate *
              (energyPhase p (calcMetalProduction cfg p s).state.energyStored).throttle))
        else 0
      else 1) := rfl

/-- Helper: the tick's zone metal after depletion (lines 856-859). -/
theorem tick_zoneMetal_def (cfg : ZoneCfg) (p : TickParams) (s : EngineState) :
    (tick cfg p s).state.zoneMetalRemaining =
      max 0 ((calcMetalProduction cfg p s).state.zoneMetalRemaining -
        (calcMetalProduction cfg p s).dep *
          (energyPhase p (calcMetalProduction cfg p s).state.energyStored).throttle *
          p.dt) := rfl

/-- Helper: the tick's zone mass after the second reduction (lines 863-871). -/
theorem tick_zoneMass_def (cfg : ZoneCfg) (p : TickParams) (s : EngineState) :
    (tick cfg p s).state.zoneMassRemaining =
      (if cfg.isDyson = false ∧ cfg.metalPct > 0 then
        max 0 ((calcMetalProduction cfg p s).state.zoneMassRemaining -
          (calcMetalProduction cfg p s).dep *
            (energyPhase p (calcMetalProduction cfg p s).state.energyStored).throttle *
            p.dt / cfg.metalPct)
      else (calcMetalProduction cfg p s).state.zoneMassRemaining) := rfl

/-- Helper: the tick leaves the per-zone slag ledger as the calculator set it. -/
theorem tick_zoneSlagProduced_def (cfg : ZoneCfg) (p : TickParams) (s : EngineState) :
    (tick cfg p s).state.zoneSlagProduced =
      (calcMetalProduction cfg p s).state.zoneSlagProduced := rfl

/-- Helper: the tick's depletion flag (lines 2322-2332). -/
theorem tick_zoneDepleted_def (cfg : ZoneCfg) (p : TickParams) (s : EngineState) :
    (tick cfg p s).state.zoneDepleted =
      ((calcMetalProduction cfg p s).state.zoneDepleted ||
        (!cfg.isDyson && decide ((tick cfg p s).state.zoneMetalRemaining ≤ 0) &&
          decide ((tick cfg p s).state.zoneMassRemaining ≤ 0))) := rfl

/-- Helper: the tick's metal stock comes out of the recycler applied to the
construction-drained, production-credited stock. -/
theorem tick_metal_def (cfg : ZoneCfg) (p : TickParams) (s : EngineState) :
    (tick cfg p s).state.metal =
      (recycleSlag p
        (buildSink (p.structureBuildRate * (tick cfg p s).energyThrottle *
            (tick cfg p s).metalThrottle) p.dt
          (buildSink (p.probeBuildRate * (tick cfg p s).energyThrottle *
              (tick cfg p s).metalThrottle) p.dt
            (max 0 ((calcMetalProduction cfg p s).state.metal +
              (tick cfg p s).metalProductionRate * p.dt))))
        (calcMetalProduction cfg p s).state.slag
        (energyPhase p (calcMetalProduction cfg p s).state.energyStored).energy).metal := rfl

/-- Helper: the tick's slag stock comes out of the recycler. -/
theorem tick_slag_def (cfg : ZoneCfg) (p : TickParams) (s : EngineState) :
    (tick cfg p s).state.slag =
      (recycleSlag p
        (buildSink (p.structureBuildRate * (tick cfg p s).energyThrottle *
            (tick cfg p s).metalThrottle) p.dt
          (buildSink (p.probeBuildRate * (tick cfg p s).energyThrottle *
              (tick cfg p s).metalThrottle) p.dt
            (max 0 ((calcMetalProduction cfg p s).state.metal +
              (tick cfg p s).metalProductionRate * p.dt))))
        (calcMetalProduction cfg p s).state.slag
        (energyPhase p (calcMetalProduction cfg p s).state.energyStored).energy).slag := rfl

/-- Helper: the tick's energy stock comes out of the recycler. -/
theorem tick_energy_def (cfg : ZoneCfg) (p : TickParams) (s : EngineState) :
    (tick cfg p s).state.energy =
      (recycleSlag p
        (buildSink (p.structureBuildRate * (tick cfg p s).energyThrottle *
            (tick cfg p s).metalThrottle) p.dt
          (buildSink (p.probeBuildRate * (tick cfg p s).energyThrottle *
              (tick cfg p s).metalThrottle) p.dt
            (max 0 ((calcMetalProduction cfg p s).state.metal +
              (tick cfg p s).metalProductionRate * p.dt))))
        (calcMetalProduction cfg p s).state.slag
        (energyPhase p (calcMetalProduction cfg p s).state.energyStored).energy).energy := rfl

/-- C3: after a tick, the stocks `metal, energy, slag, energy_stored` and the
zone's `zone_metal_remaining, zone_mass_remaining` are all nonnegative, for
every `Δt ≥ 0` and every state whose slag and zone mass are nonnegative
(both hold at initialisation and are re-established by every tick), given
the catalog invariants (`metal_percentage ≤ 1`, nonnegative rates and
recycler coefficients). -/
theorem tick_stocks_nonneg (cfg : ZoneCfg) (p : TickParams) (s : EngineState)
    (hslag : 0 ≤ s.slag) (hmass : 0 ≤ s.zoneMassRemaining)
    (hhc : 0 ≤ p.harvestCount) (hhr : 0 ≤ p.harvestRatePerProbe) (hpe : 0 ≤ p.prodEff)
    (hmp1 : cfg.metalPct ≤ 1) (hdt : 0 ≤ p.dt) (hec : 0 ≤ p.convEnergyCost) :
    0 ≤ (tick cfg p s).state.metal ∧ 0 ≤ (tick cfg p s).state.energy ∧
      0 ≤ (tick cfg p s).state.slag ∧ 0 ≤ (tick cfg p s).state.energyStored ∧
      0 ≤ (tick cfg p s).state.zoneMetalRemaining ∧
      0 ≤ (tick cfg p s).state.zoneMassRemaining := by
  have hs1 := calcMetal_state_slag_nonneg cfg p s hslag hhc hhr hpe hmp1
  have hrec := recycleSlag_nonneg p
    (buildSink (p.structureBuildRate * (tick cfg p s).energyThrottle *
        (tick cfg p s).metalThrottle) p.dt
      (buildSink (p.probeBuildRate * (tick cfg p s).energyThrottle *
          (tick cfg p s).metalThrottle) p.dt
        (max 0 ((calcMetalProduction cfg p s).state.metal +
          (tick cfg p s).metalProductionRate * p.dt))))
    (calcMetalProduction cfg p s).state.slag
    (energyPhase p (calcMetalProduction cfg p s).state.energyStored).energy
    (buildSink_nonneg _ _ _) hs1 (energyPhase_energy_nonneg p _) hdt hec
  refine ⟨?_, ?_, ?_, ?_, ?_, ?_⟩
  · rw [tick_metal_def]
    exact hrec.1
  · rw [tick_energy_def]
    exact hrec.2.2
  · rw [tick_slag_def]
    exact hrec.2.1
  · rw [tick_stored_def]
    exact energyPhase_stored_nonneg p _
  · rw [tick_zoneMetal_def]
    exact le_max_left 0 _
  · rw [tick_zoneMass_def]
    split_ifs
    · exact le_max_left 0 _
    · exact calcMetal_state_zoneMassRemaining_nonneg cfg p s hmass

/-- C3 witness: the nonnegativity conclusion evaluated at the concrete
sample zone, parameters and state. -/
theorem tick_stocks_nonneg_witness :
    0 ≤ (tick sampleCfg sampleParams sampleState).state.metal ∧
      0 ≤ (tick sampleCfg sampleParams sampleState).state.energy ∧
      0 ≤ (tick sampleCfg sampleParams sampleState).state.slag ∧
      0 ≤ (tick sampleCfg sampleParams sampleState).state.energyStored ∧
      0 ≤ (tick sampleCfg sampleParams sampleState).state.zoneMetalRemaining ∧
      0 ≤ (tick sampleCfg sampleParams sampleState).state.zoneMassRemaining :=
  tick_stocks_nonneg sampleCfg sampleParams sampleState
    (by norm_num [sampleState]) (by norm_num [sampleState]) (by norm_num [sampleParams])
    (by norm_num [sampleParams]) (by norm_num [sampleParams]) (by norm_num [sampleCfg])
    (by norm_num [sampleParams]) (by norm_num [sampleParams])

/-- C4: on every tick both throttles lie in `[0, 1]` (given nonnegative
stored energy and `Δt`), and in the idle special case — zero production
rates, zero consumption and demand, nonnegative constant supply — both
throttles equal 1. -/
theorem tick_throttles_in_unit_interval (cfg : ZoneCfg) (p : TickParams) (s : EngineState)
    (hst : 0 ≤ s.energyStored) (hdt : 0 ≤ p.dt) :
    (0 ≤ (tick cfg p s).energyThrottle ∧ (tick cfg p s).energyThrottle ≤ 1 ∧
      0 ≤ (tick cfg p s).metalThrottle ∧ (tick cfg p s).metalThrottle ≤ 1) ∧
    (p.energyProduction = 0 → p.nonComputeConsumption = 0 → p.computeConsumption = 0 →
      0 ≤ p.constantSupply → p.metalDemandRate = 0 → p.harvestCount = 0 →
      (tick cfg p s).energyThrottle = 1 ∧ (tick cfg p s).metalThrottle = 1) := by
  constructor
  · refine ⟨?_, ?_, ?_, ?_⟩
    · rw [tick_energyThrottle_def]
      exact energyPhase_throttle_nonneg p _
    · rw [tick_energyThrottle_def, calcMetal_state_energyStored]
      exact energyPhase_throttle_le_one p s.energyStored hst hdt
    · rw [tick_metalThrottle_def]
      split_ifs
      · exact le_max_left 0 _
      · exact le_refl 0
      · exact zero_le_one
    · rw [tick_metalThrottle_def]
      split_ifs with h1 h2
      · refine max_le (by norm_num) ?_
        exact le_of_lt ((div_lt_one h2).mpr (by linarith [h1.2]))
      · exact zero_le_one
      · exact le_refl 1
  · intro hprod hnc hcc hsup hdem hharv
    constructor
    · rw [tick_energyThrottle_def, calcMetal_state_energyStored]
      exact energyPhase_idle p s.energyStored hst hdt hprod hnc hcc hsup
    · rw [tick_metalThrottle_def, calcMetal_rate_of_no_harvest cfg p s hharv, hdem]
      simp

/-- Idle parameters: no activity anywhere, only the constant 100 kW supply. -/
def idleParams : TickParams :=
  { harvestCount := 0
    harvestRatePerProbe := 0
    prodEff := 1
    constantSupply := 100000
    energyProduction := 0
    nonComputeConsumption := 0
    computeConsumption := 0
    storageCapacity := 0
    metalDemandRate := 0
    probeBuildRate := 0
    structureBuildRate := 0
    convCapacity := 0
    convEnergyCost := 0
    dt := 1 }

/-- C4 witness: the bounds at the sample input and the idle case at
`idleParams`, where both throttles are exactly 1. -/
theorem tick_throttles_in_unit_interval_witness :
    (0 ≤ (tick sampleCfg sampleParams sampleState).energyThrottle ∧
      (tick sampleCfg sampleParams sampleState).energyThrottle ≤ 1 ∧
      0 ≤ (tick sampleCfg sampleParams sampleState).metalThrottle ∧
      (tick sampleCfg sampleParams sampleState).metalThrottle ≤ 1) ∧
    ((tick sampleCfg idleParams sampleState).energyThrottle = 1 ∧
      (tick sampleCfg idleParams sampleState).metalThrottle = 1) :=
  ⟨(tick_throttles_in_unit_interval sampleCfg sampleParams sampleState
      (by norm_num [sampleState]) (by norm_num [sampleParams])).1,
    (tick_throttles_in_unit_interval sampleCfg idleParams sampleState
      (by norm_num [sampleState]) (by norm_num [idleParams])).2
      rfl rfl rfl (by norm_num [idleParams]) rfl rfl⟩

/-- C8: when the watt-day energy deficit of a tick is positive but covered
by stored energy (with storage within its reachable bound
`energy_stored ≤ capacity`), the energy throttle stays exactly 1 and
`energy_stored` decreases by exactly the deficit. -/
theorem energy_storage_covers_deficit_keeps_throttle (cfg : ZoneCfg) (p : TickParams)
    (s : EngineState)
    (hdef : 0 < (p.nonComputeConsumption + p.computeConsumption -
      (p.constantSupply + p.energyProduction)) * p.dt)
    (hle : (p.nonComputeConsumption + p.computeConsumption -
      (p.constantSupply + p.energyProduction)) * p.dt ≤ s.energyStored)
    (hcap : s.energyStored ≤ p.storageCapacity) :
    (tick cfg p s).energyThrottle = 1 ∧
      (tick cfg p s).state.energyStored =
        s.energyStored - (p.nonComputeConsumption + p.computeConsumption -
          (p.constantSupply + p.energyProduction)) * p.dt := by
  have h := energyPhase_deficit_covered p s.energyStored hdef hle hcap
  constructor
  · rw [tick_energyThrottle_def, calcMetal_state_energyStored]
    exact h.1
  · rw [tick_stored_def, calcMetal_state_energyStored]
    exact h.2

/-- Parameters with a 10 watt-day per-tick deficit against storage. -/
def deficitParams : TickParams :=
  { harvestCount := 0
    harvestRatePerProbe := 0
    prodEff := 1
    constantSupply := 0
    energyProduction := 0
    nonComputeConsumption := 10
    computeConsumption := 0
    storageCapacity := 20
    metalDemandRate := 0
    probeBuildRate := 0
    structureBuildRate := 0
    convCapacity := 0
    convEnergyCost := 0
    dt := 1 }

/-- The sample state holding 15 watt-days of stored energy. -/
def storedState : EngineState :=
  { sampleState with energyStored := 15 }

/-- C8 witness: a 10 watt-day deficit against 15 watt-days of storage keeps
the throttle at 1 and leaves 5 watt-days stored. -/
theorem energy_storage_covers_deficit_keeps_throttle_witness :
    (tick sampleCfg deficitParams storedState).energyThrottle = 1 ∧
      (tick sampleCfg deficitParams storedState).state.energyStored =
        storedState.energyStored -
          (deficitParams.nonComputeConsumption + deficitParams.computeConsumption -
            (deficitParams.constantSupply + deficitParams.energyProduction)) *
            deficitParams.dt :=
  energy_storage_covers_deficit_keeps_throttle sampleCfg deficitParams storedState
    (by norm_num [deficitParams]) (by norm_num [deficitParams, storedState, sampleState])
    (by norm_num [deficitParams, storedState, sampleState])

/-- C9: zone depletion never applies to the Dyson zone, is irreversible, is
set exactly when metal and mass are both exhausted at the end of a tick, and
a depleted zone contributes zero metal production (and no slag, and no
further zone-metal reduction) regardless of its harvest allocation. -/
theorem zone_depletion_irreversible_and_inert (cfg : ZoneCfg) (p : TickParams)
    (s : EngineState) :
    (cfg.isDyson = true → (tick cfg p s).state.zoneDepleted = s.zoneDepleted) ∧
    (s.zoneDepleted = true → (tick cfg p s).state.zoneDepleted = true) ∧
    (cfg.isDyson = false → (tick cfg p s).state.zoneMetalRemaining ≤ 0 →
      (tick cfg p s).state.zoneMassRemaining ≤ 0 →
      (tick cfg p s).state.zoneDepleted = true) ∧
    (s.zoneDepleted = true → (tick cfg p s).metalProductionRate = 0 ∧
      (tick cfg p s).state.zoneSlagProduced = s.zoneSlagProduced ∧
      (tick cfg p s).state.zoneMetalRemaining = max 0 s.zoneMetalRemaining) := by
  refine ⟨?_, ?_, ?_, ?_⟩
  · intro hd
    rw [tick_zoneDepleted_def, calcMetal_state_zoneDepleted, hd]
    simp
  · intro hdep
    rw [tick_zoneDepleted_def, calcMetal_state_zoneDepleted, hdep]
    simp
  · intro hd h2 h3
    rw [tick_zoneDepleted_def, hd]
    simp [decide_eq_true h2, decide_eq_true h3]
  · intro hdep
    have hc := calcMetal_depleted cfg p s hdep
    refine ⟨?_, ?_, ?_⟩
    · rw [tick_rate_def, hc.1, zero_mul]
    · rw [tick_zoneSlagProduced_def]
      exact hc.2.2.1
    · rw [tick_zoneMetal_def, calcMetal_state_zoneMetalRemaining, hc.2.1, zero_mul,
        zero_mul, sub_zero]

/-- The Dyson zone configuration. -/
def dysonCfg : ZoneCfg :=
  { isDyson := true, metalPct := 0 }

/-- The sample state with its zone already depleted. -/
def depletedState : EngineState :=
  { sampleState with zoneDepleted := true }

/-- The sample state with the zone's metal and mass both exhausted. -/
def exhaustedState : EngineState :=
  { sampleState with zoneMetalRemaining := 0, zoneMassRemaining := 0 }

/-- C9 witness: the four depletion facts at concrete inputs — the Dyson zone
keeps its (false) flag, a depleted zone stays depleted, a freshly exhausted
zone is marked depleted, and a depleted zone produces no metal. -/
theorem zone_depletion_irreversible_and_inert_witness :
    (tick dysonCfg sampleParams sampleState).state.zoneDepleted =
        sampleState.zoneDepleted ∧
      (tick sampleCfg sampleParams depletedState).state.zoneDepleted = true ∧
      (tick sampleCfg sampleParams exhaustedState).state.zoneDepleted = true ∧
      (tick sampleCfg sampleParams depletedState).metalProductionRate = 0 :=
  ⟨(zone_depletion_irreversible_and_inert dysonCfg sampleParams sampleState).1 rfl,
    (zone_depletion_irreversible_and_inert sampleCfg sampleParams depletedState).2.1 rfl,
    (zone_depletion_irreversible_and_inert sampleCfg sampleParams exhaustedState).2.2.1 rfl
      (by norm_num [tick_zoneMetal_def, calcMetalProduction, energyPhase,
        sampleCfg, sampleParams, exhaustedState, sampleState])
      (by norm_num [tick_zoneMass_def, calcMetalProduction, energyPhase,
        sampleCfg, sampleParams, exhaustedState, sampleState]),
    ((zone_depletion_irreversible_and_inert sampleCfg sampleParams depletedState).2.2.2
      rfl).1⟩

end Brachisto
